import Mathlib

/-!
Shallow embedding of the core of `src/extension.ts` (rls-vscode): the sysroot
prober `getSysroot`, the environment builder `makeRlsEnv`, the launch-strategy
selection of `makeRlsProcess`, the log-capture setup, and the progress tracker
`diagnosticCounter`, together with theorems settling the spec claims.

JavaScript-specific behaviour is embedded faithfully:
* `String.prototype.replace(pat, '')` with a one-character string pattern
  removes only the FIRST occurrence of that character;
* `if (x)` on a string-valued environment/configuration entry is truthiness:
  it holds exactly when the entry is present and non-empty;
* `x || d` on strings yields `d` when `x` is absent or empty.
-/

namespace RlsVscode

/-- Outcome of a `child_process.spawnSync` invocation, as consumed by
`getSysroot` (src/src/extension.ts lines 29-43): an optional spawn error,
the numeric exit status (`0` standing in for node's `null` when the field is
absent, which the code only ever compares with `> 0`), and the standard
output, `none` when node reports no output object at all. -/
structure SpawnResult where
  error : Option String
  status : Int
  stdout : Option String
deriving DecidableEq, Repr

/-- Error taxonomy of the sysroot prober (spec section 4.1 / 7): the three
`new Error(...)` returns of `getSysroot`. -/
inductive GetSysrootError where
  | spawnError (message : String)
  | exitError (status : Int)
  | emptyOutput
deriving DecidableEq, Repr

/-- Remove the first occurrence of the character `c` from a list. -/
def removeFirstChar : List Char → Char → List Char
  | [], _ => []
  | x :: xs, c => if x = c then xs else x :: removeFirstChar xs c

/-- JavaScript `s.replace(c, '')` for a one-character string pattern `c`:
only the first occurrence of `c` anywhere in `s` is removed. -/
def jsRemoveFirst (s : String) (c : Char) : String :=
  ⟨removeFirstChar s.data c⟩

/-- The external command run by `getSysroot` (src/src/extension.ts line 30). -/
def getSysrootCommand : String := "rustup"

/-- The argument list passed by `getSysroot` (src/src/extension.ts line 30). -/
def getSysrootArgs : List String := ["run", "nightly", "rustc", "--print", "sysroot"]

/-- The body of `getSysroot` after the `spawnSync` call
(src/src/extension.ts lines 33-48): spawn error first, then the
`status > 0` check, then the missing-output check, and finally
`.toString().replace('\n', '').replace('\r', '')` on the output. -/
def processSpawnResult (r : SpawnResult) : Except GetSysrootError String :=
  match r.error with
  | some m => .error (.spawnError m)
  | none =>
    if r.status > 0 then
      .error (.exitError r.status)
    else
      match r.stdout with
      | none => .error .emptyOutput
      | some out => .ok (jsRemoveFirst (jsRemoveFirst out '\n') '\r')

/-- The process environment, restricted to the variables `extension.ts`
reads or writes: `RUST_SRC_PATH`, `PATH` and `HOME`.  `none` is an unset
variable. -/
structure Env where
  RUST_SRC_PATH : Option String
  PATH : Option String
  HOME : Option String
deriving DecidableEq, Repr

/-- A spawner abstracts `child_process.spawnSync`: command, argument list and
environment in, `SpawnResult` out. -/
def Spawner : Type := String → List String → Env → SpawnResult

/-- `getSysroot(env)` (src/src/extension.ts lines 29-48): run the fixed
`rustup` probe command with the given environment and post-process the
result. -/
def getSysroot (spawn : Spawner) (env : Env) : Except GetSysrootError String :=
  processSpawnResult (spawn getSysrootCommand getSysrootArgs env)

/-- JavaScript truthiness of a string-valued variable: present and
non-empty. -/
def jsTruthy : Option String → Bool
  | none => false
  | some s => !s.isEmpty

/-- JavaScript `x || d` on an optional string: `d` when `x` is absent or
empty. -/
def jsOr (x : Option String) (d : String) : String :=
  match x with
  | none => d
  | some s => if s.isEmpty then d else s

/-- The `PATH` widening performed on probe failure
(src/src/extension.ts line 63):
`env.PATH = ${env.HOME || '~'}/.cargo/bin:${env.PATH || ''}`. -/
def extendPath (e : Env) : Env :=
  { e with PATH := some (jsOr e.HOME "~" ++ "/.cargo/bin:" ++ jsOr e.PATH "") }

/-- The fixed relative suffix appended to a probed sysroot
(src/src/extension.ts line 74). -/
def rustSrcSuffix : String := "/lib/rustlib/src/rust/src"

/-- Result of running `makeRlsEnv`: the environment value returned to the
caller, the state of the ambient `process.env` after the call (the source
aliases `env` to `process.env`, so the two are the same object), and how
many probe invocations were made. -/
structure MakeRlsEnvResult where
  returned : Env
  ambientAfter : Env
  probeCalls : Nat
deriving DecidableEq, Repr

/-- `makeRlsEnv()` (src/src/extension.ts lines 53-78).  `const env =
process.env` aliases the ambient environment, so every assignment to
`env.PATH` / `env.RUST_SRC_PATH` also mutates the ambient mapping: the
embedding records the post-call ambient state explicitly. -/
def makeRlsEnv (spawn : Spawner) (ambient : Env) : MakeRlsEnvResult :=
  if jsTruthy ambient.RUST_SRC_PATH then
    ⟨ambient, ambient, 0⟩
  else
    match getSysroot spawn ambient with
    | .ok sysroot =>
      let env := { ambient with RUST_SRC_PATH := some (sysroot ++ rustSrcSuffix) }
      ⟨env, env, 1⟩
    | .error _ =>
      let env1 := extendPath ambient
      match getSysroot spawn env1 with
      | .ok sysroot =>
        let env2 := { env1 with RUST_SRC_PATH := some (sysroot ++ rustSrcSuffix) }
        ⟨env2, env2, 2⟩
      | .error _ => ⟨env1, env1, 2⟩

/-- The launch strategy actually selected and executed by `makeRlsProcess`
(src/src/extension.ts lines 87-96): spawn the configured executable
directly, spawn a toolchain-mediated build-and-run in the configured
project root, or delegate to `runRlsViaRustup`. -/
inductive LaunchStrategy where
  | explicitPath (path : String) (args : List String) (env : Env)
  | projectRoot (command : String) (args : List String) (cwd : String) (env : Env)
  | toolchainRunner (env : Env)
deriving DecidableEq, Repr

/-- The argument list of the project-root strategy
(src/src/extension.ts line 92). -/
def rlsRunArgs : List String := ["run", "nighty", "cargo", "run", "--release"]

/-- The strategy selection of `makeRlsProcess` (src/src/extension.ts lines
87-96): `if (rls_path) ... else if (rls_root) ... else ...`, with
JavaScript truthiness on the two configuration strings. -/
def makeRlsProcessStrategy (rls_path rls_root : Option String) (env : Env) :
    LaunchStrategy :=
  match rls_path with
  | some p =>
    if p.isEmpty then
      match rls_root with
      | some r => if r.isEmpty then .toolchainRunner env
                  else .projectRoot "rustup" rlsRunArgs r env
      | none => .toolchainRunner env
    else .explicitPath p [] env
  | none =>
    match rls_root with
    | some r => if r.isEmpty then .toolchainRunner env
                else .projectRoot "rustup" rlsRunArgs r env
    | none => .toolchainRunner env

/-- `makeRlsProcess` up to the point the child-process promise is made
(src/src/extension.ts lines 82-97): build the environment with
`makeRlsEnv`, then select the launch strategy. -/
def makeRlsProcess (spawn : Spawner) (rls_path rls_root : Option String)
    (ambient : Env) : LaunchStrategy :=
  makeRlsProcessStrategy rls_path rls_root (makeRlsEnv spawn ambient).returned

/-- The write stream opened for log capture: its path and its
`fs.createWriteStream` flags (src/src/extension.ts lines 108-110). -/
structure LogCaptureSetup where
  path : String
  flags : String
deriving DecidableEq, Repr

/-- The log-file path `workspace.rootPath + '/rls' + Date.now() + '.log'`
(src/src/extension.ts line 109); the timestamp is embedded via JavaScript
string coercion, taken here already in string form. -/
def logPath (rootPath : String) (now : String) : String :=
  rootPath ++ "/rls" ++ now ++ ".log"

/-- The flags passed to `fs.createWriteStream`
(src/src/extension.ts line 110). -/
def logStreamFlags : String := "w+"

/-- The log-capture setup of `makeRlsProcess` (src/src/extension.ts lines
108-119): when `CONFIGURATION.logToFile` is set, exactly one write stream
is created, at the timestamped workspace path with flags `"w+"`. -/
def logCapture (logToFile : Bool) (rootPath : String) (now : String) :
    Option LogCaptureSetup :=
  if logToFile then some ⟨logPath rootPath now, logStreamFlags⟩ else none

/-- What the stderr listener writes for a received chunk
(src/src/extension.ts line 113): `logStream.write(chunk.toString())`, the
chunk text unmodified. -/
def logWrite (chunk : String) : String := chunk

/-- Modelled from the spec: node's `fs` open-flag semantics are outside
this repository.  A flags string requests append mode exactly when it
begins with the character `a` (`"a"`, `"a+"`, `"ax"`, ...); the spec's
"append-mode text file" claim is checked against this. -/
def fsFlagsAppend (flags : String) : Bool :=
  match flags.data with
  | [] => false
  | c :: _ => c = 'a'

/-- The two notifications consumed by `diagnosticCounter`
(src/src/extension.ts lines 198-204): `rustDocument/beginBuild` and
`rustDocument/diagnosticsEnd`. -/
inductive Notif where
  | beginBuild
  | diagnosticsEnd
deriving DecidableEq, Repr

/-- State of the progress tracker: the `runningDiagnostics` counter of
`diagnosticCounter` (a plain signed number, never clamped), and the
busy/idle state of the spinner display.  The spinner field is modelled
from the spec: the spinner module is not under `src/`, and the spec
describes the indicator as a two-valued busy/idle display. -/
structure TrackerState where
  runningDiagnostics : Int
  spinning : Bool
deriving DecidableEq, Repr

/-- A fresh tracker: counter `0`, idle. -/
def initialTracker : TrackerState := ⟨0, false⟩

/-- The fixed display label passed to `startSpinner`
(src/src/extension.ts line 200). -/
def workingLabel : String := "RLS: working"

/-- The fixed display label passed to `stopSpinner`
(src/src/extension.ts line 205). -/
def doneLabel : String := "RLS: done"

/-- Modelled from the spec: `startSpinner` (module `./spinner`, not under
`src/`) switches the two-valued busy/idle indicator to busy. -/
def startSpinner (s : TrackerState) : TrackerState := { s with spinning := true }

/-- Modelled from the spec: `stopSpinner` switches the indicator to idle. -/
def stopSpinner (s : TrackerState) : TrackerState := { s with spinning := false }

/-- One step of `diagnosticCounter` (src/src/extension.ts lines 198-207):
on `beginBuild`, `runningDiagnostics++` then `startSpinner('RLS: working')`
unconditionally; on `diagnosticsEnd`, `runningDiagnostics--` then
`stopSpinner('RLS: done')` when the counter is now `<= 0`. -/
def trackerStep (s : TrackerState) (n : Notif) : TrackerState :=
  match n with
  | .beginBuild => startSpinner { s with runningDiagnostics := s.runningDiagnostics + 1 }
  | .diagnosticsEnd =>
    if s.runningDiagnostics - 1 ≤ 0 then
      stopSpinner { s with runningDiagnostics := s.runningDiagnostics - 1 }
    else
      { s with runningDiagnostics := s.runningDiagnostics - 1 }

/-- Process a sequence of notifications in delivery order. -/
def trackerRun (s : TrackerState) (ns : List Notif) : TrackerState :=
  ns.foldl trackerStep s

/-- Modelled from the spec: the indicator is edge-triggered, so processing
a notification produces an observable enter-busy transition exactly when
it calls `startSpinner` while the indicator is idle. -/
def emitsEnterBusy (s : TrackerState) (n : Notif) : Bool :=
  match n with
  | .beginBuild => !s.spinning
  | .diagnosticsEnd => false

/-- The tracker is in its idle state. -/
def isIdle (s : TrackerState) : Bool := !s.spinning

/-- Written from the spec's words, for comparison with the prober's actual
output post-processing: strip ALL trailing newline and carriage-return
characters, leaving every other character unchanged. -/
def stripTrailingNewlines (s : String) : String :=
  ⟨(s.data.reverse.dropWhile (fun c => c = '\n' || c = '\r')).reverse⟩

/-- Number of `beginBuild` notifications in a sequence. -/
def beginCount : List Notif → Nat
  | [] => 0
  | .beginBuild :: t => beginCount t + 1
  | .diagnosticsEnd :: t => beginCount t

/-- Number of `diagnosticsEnd` notifications in a sequence. -/
def endCount : List Notif → Nat
  | [] => 0
  | .beginBuild :: t => endCount t
  | .diagnosticsEnd :: t => endCount t + 1

/-- The prober result is the `ExitError` variant. -/
def isExitError : Except GetSysrootError String → Bool
  | .error (.exitError _) => true
  | _ => false

/-- Invariant of reachable tracker states: a strictly positive counter
means the spinner is busy. -/
def TrackerInv (s : TrackerState) : Prop :=
  0 < s.runningDiagnostics → s.spinning = true

/-- A concrete ambient environment: no `RUST_SRC_PATH`, an ordinary
`PATH` and `HOME`. -/
def cexAmbient : Env := ⟨none, some "/usr/bin", some "/home/u"⟩

/-- A spawner whose invocations always fail to start (spawn error). -/
def cexSpawnErr : Spawner := fun _ _ _ => ⟨some "ENOENT", 0, none⟩

/-- A spawner whose invocations always succeed with output `"/x\n"`. -/
def okSpawn : Spawner := fun _ _ _ => ⟨none, 0, some "/x\n"⟩

/-- A spawner whose invocations always terminate with status `-1` and
output `"x"`. -/
def negStatusSpawn : Spawner := fun _ _ _ => ⟨none, -1, some "x"⟩

/-- A spawner whose invocations succeed with the two-line output
`"a\nb"`. -/
def multilineSpawn : Spawner := fun _ _ _ => ⟨none, 0, some "a\nb"⟩

/-- A spawner realising the retry scenario: it exits with status `1` and
empty output unless the environment's `PATH` is the widened one of
`cexAmbient`, in which case it succeeds with output
`"/opt/toolchain\r\n"`. -/
def retrySpawn : Spawner := fun _ _ e =>
  if e.PATH = some "/home/u/.cargo/bin:/usr/bin" then ⟨none, 0, some "/opt/toolchain\r\n"⟩
  else ⟨none, 1, some ""⟩

/-- An ambient environment whose `RUST_SRC_PATH` is set to the empty
string. -/
def emptyOverrideEnv : Env := ⟨some "", none, none⟩

/-! Helper lemmas shared by the claim theorems. -/

theorem trackerRun_nil (s : TrackerState) : trackerRun s [] = s := rfl

theorem trackerRun_cons (s : TrackerState) (n : Notif) (t : List Notif) :
    trackerRun s (n :: t) = trackerRun (trackerStep s n) t := rfl

theorem trackerRun_concat (s : TrackerState) (l : List Notif) (n : Notif) :
    trackerRun s (l ++ [n]) = trackerStep (trackerRun s l) n := by
  simp [trackerRun, List.foldl_append]

theorem trackerStep_begin_eq (s : TrackerState) :
    trackerStep s Notif.beginBuild = ⟨s.runningDiagnostics + 1, true⟩ := rfl

theorem trackerStep_end_eq (s : TrackerState) :
    trackerStep s Notif.diagnosticsEnd =
      if s.runningDiagnostics - 1 ≤ 0 then ⟨s.runningDiagnostics - 1, false⟩
      else ⟨s.runningDiagnostics - 1, s.spinning⟩ := by
  simp only [trackerStep, stopSpinner]

theorem trackerStep_end_counter (s : TrackerState) :
    (trackerStep s Notif.diagnosticsEnd).runningDiagnostics = s.runningDiagnostics - 1 := by
  rw [trackerStep_end_eq]
  split <;> rfl

theorem beginCount_append (l l' : List Notif) :
    beginCount (l ++ l') = beginCount l + beginCount l' := by
  induction l with
  | nil => simp [beginCount]
  | cons n t ih => cases n <;> (simp [beginCount, ih]; try omega)

theorem endCount_append (l l' : List Notif) :
    endCount (l ++ l') = endCount l + endCount l' := by
  induction l with
  | nil => simp [endCount]
  | cons n t ih => cases n <;> (simp [endCount, ih]; try omega)

theorem trackerRun_counter (s : TrackerState) (ns : List Notif) :
    (trackerRun s ns).runningDiagnostics =
      s.runningDiagnostics + beginCount ns - endCount ns := by
  induction ns generalizing s with
  | nil => simp [trackerRun, beginCount, endCount]
  | cons n t ih =>
    rw [trackerRun_cons, ih]
    cases n
    · rw [trackerStep_begin_eq]
      simp [beginCount, endCount]
      omega
    · rw [trackerStep_end_counter]
      simp [beginCount, endCount]
      omega

theorem trackerInv_step (s : TrackerState) (n : Notif) (h : TrackerInv s) :
    TrackerInv (trackerStep s n) := by
  cases n
  · intro _
    rfl
  · rw [trackerStep_end_eq]
    split
    · rename_i hle
      intro hpos
      have hpos' : 0 < s.runningDiagnostics - 1 := hpos
      exact absurd hpos' (by omega)
    · rename_i hgt
      intro _
      have hp : 0 < s.runningDiagnostics := by omega
      exact h hp

theorem trackerInv_run (s : TrackerState) (ns : List Notif) (h : TrackerInv s) :
    TrackerInv (trackerRun s ns) := by
  induction ns generalizing s with
  | nil => exact h
  | cons n t ih => exact ih _ (trackerInv_step s n h)

theorem trackerInv_reachable (ns : List Notif) :
    TrackerInv (trackerRun initialTracker ns) :=
  trackerInv_run initialTracker ns (fun h => absurd h (by decide))

theorem removeFirstChar_append_of_notMem (l₁ l₂ : List Char) (c : Char) (h : c ∉ l₁) :
    removeFirstChar (l₁ ++ l₂) c = l₁ ++ removeFirstChar l₂ c := by
  induction l₁ with
  | nil => rfl
  | cons x t ih =>
    simp only [List.mem_cons, not_or] at h
    have hx : ¬ x = c := fun hh => h.1 hh.symm
    simp only [List.cons_append, removeFirstChar, if_neg hx, List.append_eq, ih h.2]

theorem removeFirstChar_of_notMem (l : List Char) (c : Char) (h : c ∉ l) :
    removeFirstChar l c = l := by
  have h2 := removeFirstChar_append_of_notMem l [] c h
  simpa [removeFirstChar] using h2

/-! Claim theorems. -/

/-- Claim C1 counterexample: the interleaving `[end, begin]` of N = 1
"build begin" and N = 1 "build end" notifications, delivered in order to a
freshly created tracker, leaves the tracker busy, not idle: the final
`beginBuild` calls `startSpinner` unconditionally. -/
theorem tracker_balanced_pair_not_idle :
    beginCount [Notif.diagnosticsEnd, Notif.beginBuild] = 1 ∧
    endCount [Notif.diagnosticsEnd, Notif.beginBuild] = 1 ∧
    isIdle (trackerRun initialTracker [Notif.diagnosticsEnd, Notif.beginBuild]) = false := by
  decide

/-- Claim C1 (amended): for every interleaving of N "build begin" and N
"build end" notifications whose last notification is a "build end" (or
with N = 0), a freshly created tracker ends in the idle state. -/
theorem tracker_balanced_last_end_idle (ns : List Notif)
    (hbal : beginCount ns = endCount ns)
    (hlast : ns = [] ∨ ∃ ms, ns = ms ++ [Notif.diagnosticsEnd]) :
    isIdle (trackerRun initialTracker ns) = true := by
  rcases hlast with rfl | ⟨ms, rfl⟩
  · rfl
  · rw [trackerRun_concat]
    have hc := trackerRun_counter initialTracker ms
    rw [beginCount_append, endCount_append] at hbal
    simp only [beginCount, endCount] at hbal
    have h0 : initialTracker.runningDiagnostics = 0 := rfl
    rw [h0] at hc
    have h1 : (trackerRun initialTracker ms).runningDiagnostics = 1 := by omega
    rw [trackerStep_end_eq, h1]
    simp [isIdle]

/-- Claim C1 witness: the balanced interleaving `[begin, end]` ends idle. -/
theorem tracker_balanced_last_end_idle_witness :
    isIdle (trackerRun initialTracker [Notif.beginBuild, Notif.diagnosticsEnd]) = true :=
  tracker_balanced_last_end_idle [Notif.beginBuild, Notif.diagnosticsEnd] (by decide)
    (Or.inr ⟨[Notif.beginBuild], rfl⟩)

/-- Claim C2 counterexample: in the reachable state after one "build end"
(counter `-1`, idle), processing a "build begin" emits the enter-busy
transition even though the increment moves the counter from `-1` to `0`,
which is not `> 0`. -/
theorem tracker_begin_busy_without_positive :
    emitsEnterBusy (trackerStep initialTracker Notif.diagnosticsEnd) Notif.beginBuild = true ∧
    ¬ 0 < (trackerStep (trackerStep initialTracker Notif.diagnosticsEnd)
      Notif.beginBuild).runningDiagnostics := by
  decide

/-- Claim C2 (amended): in every reachable tracker state, a "build begin"
increments the counter by 1 and switches the indicator to busy; the
enter-busy transition is observed exactly when the indicator was idle, so
it is never observed while the counter is already `> 0`, but it can also
be observed when an unbalanced history left the counter at or below `0`
with the indicator idle. -/
theorem tracker_begin_step_spec (ns : List Notif) :
    (trackerStep (trackerRun initialTracker ns) Notif.beginBuild).runningDiagnostics =
      (trackerRun initialTracker ns).runningDiagnostics + 1 ∧
    (trackerStep (trackerRun initialTracker ns) Notif.beginBuild).spinning = true ∧
    emitsEnterBusy (trackerRun initialTracker ns) Notif.beginBuild =
      !(trackerRun initialTracker ns).spinning ∧
    (0 < (trackerRun initialTracker ns).runningDiagnostics →
      emitsEnterBusy (trackerRun initialTracker ns) Notif.beginBuild = false) := by
  refine ⟨rfl, rfl, rfl, fun hpos => ?_⟩
  have hs := trackerInv_reachable ns hpos
  simp [emitsEnterBusy, hs]

/-- Claim C2 witness: after one `beginBuild` the counter is positive and a
further `beginBuild` emits no busy transition. -/
theorem tracker_begin_step_spec_witness :
    emitsEnterBusy (trackerRun initialTracker [Notif.beginBuild]) Notif.beginBuild = false :=
  (tracker_begin_step_spec [Notif.beginBuild]).2.2.2 (by decide)

/-- Claim C3 counterexample: with no search-path override and a probe that
cannot start, `makeRlsEnv` mutates the caller's ambient mapping: the
ambient `PATH` changes from `/usr/bin` to `/home/u/.cargo/bin:/usr/bin`. -/
theorem makeRlsEnv_mutates_ambient_path :
    (makeRlsEnv cexSpawnErr cexAmbient).ambientAfter.PATH =
      some "/home/u/.cargo/bin:/usr/bin" ∧
    (makeRlsEnv cexSpawnErr cexAmbient).ambientAfter.PATH ≠ cexAmbient.PATH := by
  decide

/-- Claim C3 (amended): the Environment Builder hands the Process
Supervisor the ambient mapping itself, not a copy — the returned value
and the post-construction ambient state always coincide — and
construction may mutate the caller's mapping: whenever the search-path
variable is not (truthily) set and the first probe fails, the ambient
`PATH` entry is overwritten with the widened search path. -/
theorem makeRlsEnv_alias_and_mutation (spawn : Spawner) (ambient : Env) :
    (makeRlsEnv spawn ambient).returned = (makeRlsEnv spawn ambient).ambientAfter ∧
    (jsTruthy ambient.RUST_SRC_PATH = false →
      (∃ e, getSysroot spawn ambient = Except.error e) →
      (makeRlsEnv spawn ambient).ambientAfter.PATH = (extendPath ambient).PATH) := by
  constructor
  · by_cases ht : jsTruthy ambient.RUST_SRC_PATH = true
    · simp [makeRlsEnv, ht]
    · rcases hg : getSysroot spawn ambient with e | s
      · rcases hg2 : getSysroot spawn (extendPath ambient) with e2 | s2 <;>
          simp [makeRlsEnv, ht, hg, hg2]
      · simp [makeRlsEnv, ht, hg]
  · rintro ht ⟨e, he⟩
    rcases hg2 : getSysroot spawn (extendPath ambient) with e2 | s2 <;>
      simp [makeRlsEnv, ht, he, hg2]

/-- Claim C3 witness: in the concrete failing-probe scenario the ambient
`PATH` after construction is the widened one. -/
theorem makeRlsEnv_alias_and_mutation_witness :
    (makeRlsEnv cexSpawnErr cexAmbient).ambientAfter.PATH = (extendPath cexAmbient).PATH :=
  (makeRlsEnv_alias_and_mutation cexSpawnErr cexAmbient).2 (by decide)
    ⟨GetSysrootError.spawnError "ENOENT", rfl⟩

/-- Claim C4 counterexample: a successful probe whose output is `"a\nb"`
returns `"ab"`: the interior newline is removed although it is not
trailing, so the returned string is not the output with only trailing
newline/carriage-return characters removed. -/
theorem getSysroot_not_trailing_strip :
    getSysroot multilineSpawn cexAmbient = Except.ok "ab" ∧
    stripTrailingNewlines "a\nb" = "a\nb" ∧
    ("ab" : String) ≠ "a\nb" :=
  ⟨rfl, by decide, by decide⟩

/-- Claim C4 (amended): the prober removes the first newline and then the
first carriage return occurring anywhere in the output (at most one of
each); for a single-line output — a line free of newline and
carriage-return characters followed by `""`, `"\n"` or `"\r\n"` — this
coincides with stripping trailing newline/carriage-return characters, and
the line itself is returned unaltered. -/
theorem getSysroot_single_line_strip (base : List Char) (r : SpawnResult)
    (hn : '\n' ∉ base) (hr : '\r' ∉ base)
    (herr : r.error = none) (hst : r.status ≤ 0)
    (hout : r.stdout = some ⟨base ++ ['\r', '\n']⟩ ∨ r.stdout = some ⟨base ++ ['\n']⟩ ∨
      r.stdout = some ⟨base⟩) :
    processSpawnResult r = Except.ok ⟨base⟩ := by
  rcases r with ⟨e, st, out⟩
  simp only at herr hst hout
  subst herr
  have hng : ¬ (st : Int) > 0 := by omega
  rcases hout with h | h | h <;> subst h <;>
    simp only [processSpawnResult, if_neg hng, jsRemoveFirst]
  · have s1 : removeFirstChar (base ++ ['\r', '\n']) '\n' = base ++ ['\r'] := by
      rw [removeFirstChar_append_of_notMem _ _ _ hn]
      rfl
    have s2 : removeFirstChar (base ++ ['\r']) '\r' = base := by
      rw [removeFirstChar_append_of_notMem _ _ _ hr]
      simp [removeFirstChar]
    simp [s1, s2]
  · have s1 : removeFirstChar (base ++ ['\n']) '\n' = base := by
      rw [removeFirstChar_append_of_notMem _ _ _ hn]
      simp [removeFirstChar]
    have s2 : removeFirstChar base '\r' = base := removeFirstChar_of_notMem base '\r' hr
    simp [s1, s2]
  · have s1 : removeFirstChar base '\n' = base := removeFirstChar_of_notMem base '\n' hn
    have s2 : removeFirstChar base '\r' = base := removeFirstChar_of_notMem base '\r' hr
    simp [s1, s2]

/-- Claim C4 witness: a successful probe with output `"/x\r\n"` returns
`"/x"`. -/
theorem getSysroot_single_line_strip_witness :
    processSpawnResult ⟨none, 0, some "/x\r\n"⟩ = Except.ok "/x" :=
  getSysroot_single_line_strip "/x".data ⟨none, 0, some "/x\r\n"⟩ (by decide) (by decide)
    rfl (by decide) (Or.inl (by decide))

/-- Claim C5: if the first probe attempt fails (exit status 1, empty
output) and the retry on the `PATH`-widened environment succeeds with
output `"/opt/toolchain\r\n"`, then the built environment's search-path
variable equals exactly `/opt/toolchain/lib/rustlib/src/rust/src`. -/
theorem makeRlsEnv_retry_scenario (spawn : Spawner) (ambient : Env)
    (hunset : ambient.RUST_SRC_PATH = none)
    (h1 : spawn getSysrootCommand getSysrootArgs ambient = ⟨none, 1, some ""⟩)
    (h2 : spawn getSysrootCommand getSysrootArgs (extendPath ambient) =
      ⟨none, 0, some "/opt/toolchain\r\n"⟩) :
    (makeRlsEnv spawn ambient).returned.RUST_SRC_PATH =
      some "/opt/toolchain/lib/rustlib/src/rust/src" := by
  have ht : jsTruthy ambient.RUST_SRC_PATH = false := by rw [hunset]; rfl
  have e1 : getSysroot spawn ambient = Except.error (.exitError 1) := by
    unfold getSysroot
    rw [h1]
    rfl
  have e2 : getSysroot spawn (extendPath ambient) = Except.ok "/opt/toolchain" := by
    unfold getSysroot
    rw [h2]
    rfl
  simp only [makeRlsEnv, ht, Bool.false_eq_true, if_false, e1, e2]
  rfl

/-- Claim C5 witness: the retry scenario realised with a concrete spawner
and ambient environment. -/
theorem makeRlsEnv_retry_scenario_witness :
    (makeRlsEnv retrySpawn cexAmbient).returned.RUST_SRC_PATH =
      some "/opt/toolchain/lib/rustlib/src/rust/src" :=
  makeRlsEnv_retry_scenario retrySpawn cexAmbient rfl (by decide) (by decide)

/-- Claim C6: with both an explicit (non-empty) executable path and an
explicit project root configured, `makeRlsProcess` uses the explicit-path
strategy exclusively: it spawns that executable directly with the built
environment and no arguments; the project-root and toolchain-runner
strategies are not selected. -/
theorem makeRlsProcess_explicit_path_priority (spawn : Spawner) (ambient : Env)
    (p root : String) (hp : p.isEmpty = false) :
    makeRlsProcess spawn (some p) (some root) ambient =
      LaunchStrategy.explicitPath p [] (makeRlsEnv spawn ambient).returned := by
  simp [makeRlsProcess, makeRlsProcessStrategy, hp]

/-- Claim C6 witness: a concrete configuration with both settings. -/
theorem makeRlsProcess_explicit_path_priority_witness :
    makeRlsProcess cexSpawnErr (some "/bin/rls") (some "/proj") cexAmbient =
      LaunchStrategy.explicitPath "/bin/rls" [] (makeRlsEnv cexSpawnErr cexAmbient).returned :=
  makeRlsProcess_explicit_path_priority cexSpawnErr cexAmbient "/bin/rls" "/proj" (by decide)

/-- Claim C7 counterexample: a probe whose command terminates with the
non-zero exit status `-1` and output `"x"` does not fail with `ExitError`:
the prober returns the path `"x"`. -/
theorem getSysroot_negative_status_returns_path :
    getSysroot negStatusSpawn cexAmbient = Except.ok "x" ∧
    isExitError (getSysroot negStatusSpawn cexAmbient) = false ∧
    (-1 : Int) ≠ 0 :=
  ⟨rfl, rfl, by decide⟩

/-- Claim C7 (amended): for a probe whose command starts, the prober fails
with `ExitError` exactly when the exit status is strictly positive; a zero
or negative status falls through to the output check instead. -/
theorem getSysroot_exit_error_iff_positive (r : SpawnResult) (herr : r.error = none) :
    isExitError (processSpawnResult r) = true ↔ 0 < r.status := by
  rcases r with ⟨e, st, out⟩
  simp only at herr
  subst herr
  simp only [processSpawnResult]
  split
  · rename_i h
    simpa [isExitError] using h
  · rename_i h
    rcases out with _ | o <;> simp [isExitError] <;> omega

/-- Claim C7 witness: a status-2 termination is reported as `ExitError`. -/
theorem getSysroot_exit_error_iff_positive_witness :
    isExitError (processSpawnResult ⟨none, 2, some "x"⟩) = true :=
  (getSysroot_exit_error_iff_positive ⟨none, 2, some "x"⟩ rfl).mpr (by decide)

/-- Claim C8 counterexample: with the search-path variable set to the
empty string (set, but falsy), `makeRlsEnv` makes a probe invocation
anyway and overwrites the variable's value. -/
theorem makeRlsEnv_empty_override_probes :
    emptyOverrideEnv.RUST_SRC_PATH = some "" ∧
    (makeRlsEnv okSpawn emptyOverrideEnv).probeCalls = 1 ∧
    (makeRlsEnv okSpawn emptyOverrideEnv).returned.RUST_SRC_PATH =
      some "/x/lib/rustlib/src/rust/src" := by
  decide

/-- Claim C8 (amended): when the ambient search-path variable is set to a
non-empty (truthy) value, `makeRlsEnv` returns the ambient environment
unchanged and makes no probe invocation at all; a variable set to the
empty string is treated as unset. -/
theorem makeRlsEnv_respects_truthy_override (spawn : Spawner) (ambient : Env)
    (h : jsTruthy ambient.RUST_SRC_PATH = true) :
    makeRlsEnv spawn ambient = ⟨ambient, ambient, 0⟩ := by
  simp [makeRlsEnv, h]

/-- Claim C8 witness: a concrete non-empty override is respected. -/
theorem makeRlsEnv_respects_truthy_override_witness :
    makeRlsEnv okSpawn ⟨some "/override", none, none⟩ =
      ⟨⟨some "/override", none, none⟩, ⟨some "/override", none, none⟩, 0⟩ :=
  makeRlsEnv_respects_truthy_override okSpawn ⟨some "/override", none, none⟩ (by decide)

/-- Claim C9 counterexample: the log stream is opened at the timestamped
workspace path but with flags `"w+"`, which is not an append-mode flags
string. -/
theorem logCapture_not_append :
    logCapture true "/ws" "123" = some ⟨"/ws/rls123.log", "w+"⟩ ∧
    fsFlagsAppend logStreamFlags = false := by
  decide

/-- Claim C9 (amended): when log capture is enabled, exactly one write
stream is opened per session, at the workspace-relative path embedding the
creation timestamp, and the received standard-error chunks are written
unmodified; the stream flags, however, are `"w+"` (truncate and
read/write), not append mode. -/
theorem logCapture_description (rootPath now chunk : String) :
    logCapture true rootPath now =
      some ⟨rootPath ++ "/rls" ++ now ++ ".log", logStreamFlags⟩ ∧
    logCapture false rootPath now = none ∧
    fsFlagsAppend logStreamFlags = false ∧
    logWrite chunk = chunk :=
  ⟨rfl, rfl, by decide, rfl⟩

/-- Claim C10: with no explicit executable path and a non-empty explicit
project root, `makeRlsProcess` spawns `rustup` with exactly the arguments
`["run", "nighty", "cargo", "run", "--release"]` and the project root as
working directory; the channel token is the literal `"nighty"`, which
differs from the `"nightly"` token the sysroot probe passes to the same
command. -/
theorem makeRlsProcess_root_nighty (spawn : Spawner) (ambient : Env)
    (root : String) (hr : root.isEmpty = false) :
    makeRlsProcess spawn none (some root) ambient =
      LaunchStrategy.projectRoot "rustup" ["run", "nighty", "cargo", "run", "--release"]
        root (makeRlsEnv spawn ambient).returned ∧
    rlsRunArgs[1]? = some "nighty" ∧
    getSysrootArgs[1]? = some "nightly" ∧
    rlsRunArgs[1]? ≠ getSysrootArgs[1]? := by
  refine ⟨?_, by decide, by decide, by decide⟩
  simp [makeRlsProcess, makeRlsProcessStrategy, rlsRunArgs, hr]

/-- Claim C10 witness: the project-root strategy realised concretely. -/
theorem makeRlsProcess_root_nighty_witness :
    makeRlsProcess okSpawn none (some "/proj") cexAmbient =
      LaunchStrategy.projectRoot "rustup" ["run", "nighty", "cargo", "run", "--release"]
        "/proj" (makeRlsEnv okSpawn cexAmbient).returned :=
  (makeRlsProcess_root_nighty okSpawn cexAmbient "/proj" (by decide)).1

end RlsVscode
